import Mathlib

/-!
Verification of the `pytool` utility library (modules `pytool/lang.py` and
`pytool/time.py`) against its natural-language specification.

The Python source (a Python 2 code base: it uses `__metaclass__`,
`__nonzero__`, `basestring` and unbound-method attributes) is shallowly
embedded below.  Python `datetime.datetime` values are represented by their
proleptic-Gregorian ordinal day (as returned by `datetime.toordinal`, day 1 =
0001-01-01, a Monday), a second-of-day, a microsecond field, and an optional
timezone (the fixed UTC offset of its `tzinfo`, in seconds; `none` models a
naive datetime).  Unix timestamps, produced by `toutctimestamp` as exact
values `seconds + microsecond/10^6`, are represented exactly as an integer
count of microseconds (the rational value times `10^6`).  Machine floats do
not appear: the arithmetic is modelled exactly.
-/

namespace Pytool

/-! ## `pytool.lang`: the `UNSET` sentinel (`_UNSETMeta` / `UNSET`) -/

/-- A universe of Python values sufficient for the sentinel claims: the
`UNSET` class object itself, `None`, booleans, integers, strings and lists. -/
inductive PyVal where
  | unset : PyVal
  | pynone : PyVal
  | pybool : Bool → PyVal
  | pyint : Int → PyVal
  | pystr : String → PyVal
  | pylist : List PyVal → PyVal

/-- Python `is` identity test against the (unique) `UNSET` class object. -/
def PyVal.isUNSET : PyVal → Bool
  | .unset => true
  | _ => false

/-- Python truthiness (`bool(v)`) on the embedded value universe.  `UNSET`
itself is falsy via `_UNSETMeta.__nonzero__`. -/
def truthy : PyVal → Bool
  | .unset => false
  | .pynone => false
  | .pybool b => b
  | .pyint n => decide (n ≠ 0)
  | .pystr s => decide (s ≠ "")
  | .pylist xs => !xs.isEmpty

/-- Source `_UNSETMeta.__nonzero__`: boolean coercion of the `UNSET` class. -/
def UNSET_nonzero : Bool := false

/-- Source `_UNSETMeta.__len__`: `len(UNSET)`. -/
def UNSET_len : Nat := 0

/-- Source `_UNSETMeta.__eq__`: `cls is other` gives `True`; `not other` (the
argument is falsy) gives `True`; otherwise `False`. -/
def UNSET_eq (other : PyVal) : Bool :=
  if other.isUNSET then true
  else if !(truthy other) then true
  else false

/-- Source `_UNSETMeta.next`: the iterator obtained from `UNSET` (which is `UNSET`
itself, by `_UNSETMeta.__iter__`) immediately raises `StopIteration`,
modelled as `none`. -/
def UNSET_next : Option PyVal := none

/-- Exhausting one iteration of `UNSET` with fuel `n`: collect elements until
`next` signals `StopIteration` or the fuel runs out. -/
def UNSET_collect : Nat → List PyVal
  | 0 => []
  | n + 1 =>
    match UNSET_next with
    | none => []
    | some v => v :: UNSET_collect n

/-! ## `pytool.lang.classproperty`

The decorator returns an instance of a synthesized descriptor type whose
`__get__(self, instance, owner)` ignores `instance` and returns
`func(owner)`.  To make re-invocation observable, the wrapped function is
modelled in state-passing style: `func : Cls → σ → V × σ` takes the owning
class and a state (e.g. an invocation counter) and returns its result and
the updated state. -/

/-- The `__get__` method of the descriptor synthesized by `classproperty`:
invoked with the instance the attribute was read from (`none` when read from
the class itself) and the owning class, it calls `func` with the owning
class, ignoring the instance. -/
def classproperty_get {Cls I V σ : Type} (func : Cls → σ → V × σ)
    (_instance : Option I) (owner : Cls) (s : σ) : V × σ :=
  func owner s

/-- A sequence of attribute reads through the `classproperty` descriptor,
one per entry of `reads` (each entry is the instance the read went through,
`none` for a read from the class itself), threading the state. -/
def classproperty_reads {Cls I V σ : Type} (func : Cls → σ → V × σ)
    (owner : Cls) : List (Option I) → σ → List V × σ
  | [], s => ([], s)
  | r :: rs, s =>
    let p := classproperty_get func r owner s
    let q := classproperty_reads func owner rs p.2
    (p.1 :: q.1, q.2)

/-! ## `pytool.lang.singleton`

`singleton(klass)` builds a fresh class whose `__new__` reads the
class-level slot `_singleton` (initially `None`): when the slot is falsy
(`if not cls._singleton:`) it runs `cls._singleton = klass(*args, **kwargs)`
and then returns `cls._singleton`.  The slot is modelled as `Option V`
(`none` is the initial `None`), the underlying class's construction logic as
`ctor : A → Except E V` (an `error` models an exception escaping
`klass(...)`, in which case the slot assignment does not happen), and the
truthiness of constructed instances as `truthyV : V → Bool`. -/

/-- One call of the synthesized `__new__`.  Returns the call's outcome (the
instance returned, or the propagated exception), the new contents of the
`_singleton` slot, and whether the underlying construction logic ran. -/
def singleton_new {A E V : Type} (ctor : A → Except E V) (truthyV : V → Bool)
    (slot : Option V) (a : A) : Except E V × Option V × Bool :=
  let runCtor : Except E V × Option V × Bool :=
    match ctor a with
    | .error e => (.error e, slot, true)
    | .ok v => (.ok v, some v, true)
  match slot with
  | none => runCtor
  | some v => if truthyV v then (.ok v, some v, false) else runCtor

/-- A sequence of construction calls, one per argument in `args`, threading
the `_singleton` slot.  Returns the list of call outcomes paired with
whether each call ran the underlying constructor, and the final slot. -/
def singleton_calls {A E V : Type} (ctor : A → Except E V)
    (truthyV : V → Bool) : Option V → List A → List (Except E V × Bool) × Option V
  | slot, [] => ([], slot)
  | slot, a :: rest =>
    let r := singleton_new ctor truthyV slot a
    let q := singleton_calls ctor truthyV r.2.1 rest
    ((r.1, r.2.2) :: q.1, q.2)

/-! ## `pytool.time`: the datetime model

A Python `datetime.datetime` is represented by its ordinal day
(`datetime.toordinal()`, with day 1 = 0001-01-01), its second of the day
(`3600*hour + 60*minute + second`), its microsecond, and the fixed UTC
offset in seconds of its `tzinfo` (`none` for a naive datetime; the
`pytool.time.UTC` singleton has offset `0`). -/

structure PyDateTime where
  ordinal : Nat
  secOfDay : Nat
  micro : Nat
  tz : Option Int
deriving DecidableEq, Repr

/-- A representable `datetime.datetime`: `datetime.MINYEAR = 1` gives
ordinal 1, `datetime.MAXYEAR = 9999` gives the largest ordinal 3652059;
hour/minute/second give a second of day below 86400; microseconds are below
`10^6`. -/
def PyDateTime.valid (d : PyDateTime) : Prop :=
  1 ≤ d.ordinal ∧ d.ordinal ≤ 3652059 ∧ d.secOfDay < 86400 ∧ d.micro < 1000000

instance (d : PyDateTime) : Decidable d.valid := by
  unfold PyDateTime.valid; infer_instance

/-- Python `datetime.weekday()`: Monday is 0.  Ordinal 1 (0001-01-01) is a Monday. -/
def PyDateTime.weekday (d : PyDateTime) : Nat := (d.ordinal - 1) % 7

/-- Python `datetime.hour`. -/
def PyDateTime.hour (d : PyDateTime) : Nat := d.secOfDay / 3600

/-- Python `datetime.minute`. -/
def PyDateTime.minute (d : PyDateTime) : Nat := d.secOfDay % 3600 / 60

/-- Python `datetime.second`. -/
def PyDateTime.second (d : PyDateTime) : Nat := d.secOfDay % 60

/-- The wall-clock position of a datetime as a single microsecond count from
the calendar origin (ignoring the timezone field): used to express datetime
subtraction, which Python performs on naive datetimes. -/
def PyDateTime.toMicros (d : PyDateTime) : Nat :=
  (d.ordinal * 86400 + d.secOfDay) * 1000000 + d.micro

/-- Python `datetime.date(1970, 1, 1).toordinal()`: the Unix epoch ordinal. -/
def epochOrdinal : Nat := 719163

/-- Calendar date from an ordinal day (the year/month/day a Python
`datetime` with this ordinal exposes), by the standard civil-from-days
algorithm on the proleptic Gregorian calendar. -/
def civilFromOrdinal (ordinal : Nat) : Int × Int × Int :=
  let z : Int := (ordinal : Int) - (epochOrdinal : Int) + 719468
  let era : Int := z.fdiv 146097
  let doe : Int := z - era * 146097
  let yoe : Int := (doe - doe.fdiv 1460 + doe.fdiv 36524 - doe.fdiv 146096).fdiv 365
  let doy : Int := doe - (365 * yoe + yoe.fdiv 4 - yoe.fdiv 100)
  let mp : Int := (5 * doy + 2).fdiv 153
  let dy : Int := doy - (153 * mp + 2).fdiv 5 + 1
  let m : Int := if mp < 10 then mp + 3 else mp - 9
  let y : Int := yoe + era * 400 + (if m ≤ 2 then 1 else 0)
  (y, m, dy)

/-- Python `datetime.year`. -/
def PyDateTime.year (d : PyDateTime) : Int := (civilFromOrdinal d.ordinal).1

/-- Python `datetime.month`. -/
def PyDateTime.month (d : PyDateTime) : Int := (civilFromOrdinal d.ordinal).2.1

/-- Python `datetime.day`. -/
def PyDateTime.day (d : PyDateTime) : Int := (civilFromOrdinal d.ordinal).2.2

/-! ## `pytool.time` functions -/

/-- Source `trim_time`: `datetime(*timestamp.date().timetuple()[:-3],
tzinfo=timestamp.tzinfo)` — the same calendar date at 00:00:00.000000 with
the timezone carried over. -/
def trim_time (timestamp : PyDateTime) : PyDateTime :=
  { ordinal := timestamp.ordinal, secOfDay := 0, micro := 0, tz := timestamp.tz }

/-- Source `week_start`: `timestamp - timedelta(days=timestamp.weekday())`, then
`datetime.fromordinal(toordinal())`, which drops both the time of day and
the timezone, producing a naive datetime at the Monday midnight of
`timestamp`'s week. -/
def week_start (timestamp : PyDateTime) : PyDateTime :=
  { ordinal := timestamp.ordinal - timestamp.weekday,
    secOfDay := 0, micro := 0, tz := none }

/-- Source `week_seconds`: `int((timestamp - week_start(timestamp)).total_seconds())`.
Subtracting the naive `week_start` from an aware `timestamp` raises
`TypeError`, modelled as `none`.  For a naive `timestamp` the difference is
nonnegative and `int(...)` truncates it to whole seconds. -/
def week_seconds (timestamp : PyDateTime) : Option Nat :=
  match timestamp.tz with
  | some _ => none
  | none =>
    some ((timestamp.toMicros - (week_start timestamp).toMicros) / 1000000)

/-- Python `datetime + timedelta(seconds=s)` for a nonnegative whole number of
seconds: normalize the second of day into the ordinal. -/
def addSeconds (d : PyDateTime) (s : Nat) : PyDateTime :=
  { ordinal := d.ordinal + (d.secOfDay + s) / 86400,
    secOfDay := (d.secOfDay + s) % 86400,
    micro := d.micro, tz := d.tz }

/-- Source `week_seconds_to_datetime`:
`week_start(datetime.now()) + timedelta(seconds=seconds)`.  The anchor is
the week of the *evaluation moment* `datetime.now()`, passed here explicitly
as `now`. -/
def week_seconds_to_datetime (now : PyDateTime) (seconds : Nat) : PyDateTime :=
  addSeconds (week_start now) seconds

/-- C4: `UNSET == UNSET` is true; `UNSET == v` is true for every false-y `v`
(in particular `None`, `False`, `0`, the empty string and the empty list)
and false for every truthy `v`. -/
theorem unset_eq_truthiness :
    UNSET_eq .unset = true ∧
    UNSET_eq .pynone = true ∧ UNSET_eq (.pybool false) = true ∧
    UNSET_eq (.pyint 0) = true ∧ UNSET_eq (.pystr "") = true ∧
    UNSET_eq (.pylist []) = true ∧
    (∀ v : PyVal, truthy v = false → UNSET_eq v = true) ∧
    (∀ v : PyVal, truthy v = true → UNSET_eq v = false) := by
  refine ⟨rfl, rfl, rfl, by decide, rfl, rfl, ?_, ?_⟩
  · intro v hv
    simp [UNSET_eq, hv]
  · intro v hv
    cases v <;> simp_all [UNSET_eq, truthy, PyVal.isUNSET]

/-- Witness for C4 at concrete inputs: the integer 7 is truthy and compares
unequal, `None` is false-y and compares equal. -/
theorem unset_eq_truthiness_witness :
    UNSET_eq (.pyint 7) = false ∧ UNSET_eq .pynone = true :=
  ⟨unset_eq_truthiness.2.2.2.2.2.2.2 (.pyint 7) (by decide),
   unset_eq_truthiness.2.2.2.2.2.2.1 .pynone (by decide)⟩

/-- C7: `bool(UNSET)` is false, `len(UNSET)` is 0, and every iteration of
`UNSET` (each pull going through `_UNSETMeta.next`, which immediately raises
`StopIteration`) yields the empty sequence, however much fuel is supplied
and however often the iteration is restarted. -/
theorem unset_bool_len_iter :
    UNSET_nonzero = false ∧ UNSET_len = 0 ∧
    ∀ n : Nat, UNSET_collect n = [] := by
  refine ⟨rfl, rfl, ?_⟩
  intro n
  cases n <;> rfl

/-- C8: reading a `classproperty` attribute, from the class (`none`) or from
any instance, returns `func(owner)`; and across any sequence of reads,
instrumenting the wrapped function with an invocation counter shows it is
re-invoked exactly once per read (no caching) and always receives the
owning class. -/
theorem classproperty_invokes_every_read {Cls I V σ : Type} :
    (∀ (func : Cls → σ → V × σ) (inst : Option I) (owner : Cls) (s : σ),
      classproperty_get func inst owner s = func owner s) ∧
    (∀ (f : Cls → V) (owner : Cls) (reads : List (Option I)) (k : Nat),
      classproperty_reads (fun c n => (f c, n + 1)) owner reads k =
        (reads.map fun _ => f owner, k + reads.length)) := by
  refine ⟨fun _ _ _ _ => rfl, ?_⟩
  intro f owner reads k
  induction reads generalizing k with
  | nil => rfl
  | cons r rs ih =>
    simp [classproperty_reads, classproperty_get, ih, Nat.add_comm,
      Nat.add_assoc, Nat.add_left_comm]

/-- C1 as stated is false: with a first-constructed instance that is falsy
(here the integer 0, and `bool(0)` is `False`), the guard
`if not cls._singleton:` passes again on the second construction call, so
the constructor runs again with the new argument and the call returns a
different instance. -/
theorem singleton_second_call_not_cached :
    (singleton_new (fun n : Nat => (Except.ok n : Except Unit Nat))
        (fun v => decide (v ≠ 0))
        (singleton_new (fun n : Nat => (Except.ok n : Except Unit Nat))
          (fun v => decide (v ≠ 0)) none 0).2.1 5) =
      (Except.ok 5, some 5, true) ∧
    (singleton_new (fun n : Nat => (Except.ok n : Except Unit Nat))
        (fun v => decide (v ≠ 0)) none 0).1 = Except.ok 0 ∧
    Except.ok (5 : Nat) ≠ (Except.ok 0 : Except Unit Nat) := by
  refine ⟨rfl, rfl, by simp⟩

/-- C1 amended: the first construction call builds the instance from the
supplied arguments and caches it; provided that instance is truthy, every
subsequent construction call, with any arguments, returns the identical
cached instance without running the underlying constructor again. -/
theorem singleton_first_builds_then_caches {A E V : Type}
    (ctor : A → Except E V) (truthyV : V → Bool) (a1 : A) (v1 : V)
    (h1 : ctor a1 = .ok v1) (h2 : truthyV v1 = true) (later : List A) :
    singleton_new ctor truthyV none a1 = (.ok v1, some v1, true) ∧
    singleton_calls ctor truthyV (some v1) later =
      (later.map fun _ => ((.ok v1 : Except E V), false), some v1) := by
  constructor
  · simp [singleton_new, h1]
  · induction later with
    | nil => rfl
    | cons a rest ih => simp [singleton_calls, singleton_new, h2, ih]

/-- Witness for C1 at concrete inputs: constructor `n ↦ n + 1` at first
argument 4 yields the truthy instance 5; the two later calls (arguments 9
and 12) both return it without reconstruction. -/
theorem singleton_first_builds_then_caches_witness :
    singleton_calls (fun n : Nat => (Except.ok (n + 1) : Except Unit Nat))
        (fun v => decide (v ≠ 0)) (some 5) [9, 12] =
      ([(Except.ok 5, false), (Except.ok 5, false)], some 5) :=
  (singleton_first_builds_then_caches
    (fun n : Nat => (Except.ok (n + 1) : Except Unit Nat))
    (fun v => decide (v ≠ 0)) 4 5 rfl (by decide) [9, 12]).2

/-- C5: when the underlying construction logic raises on a call made with
the slot empty, the exception propagates, the slot stays empty (`None`), and
the constructor did run; a later call therefore retries the underlying
constructor and, if it now succeeds, caches and returns the new instance. -/
theorem singleton_error_leaves_slot_empty {A E V : Type}
    (ctor : A → Except E V) (truthyV : V → Bool) (a1 a2 : A) (e : E) (v : V)
    (h1 : ctor a1 = .error e) (h2 : ctor a2 = .ok v) :
    singleton_new ctor truthyV none a1 = (.error e, none, true) ∧
    singleton_new ctor truthyV none a2 = (.ok v, some v, true) := by
  constructor
  · simp [singleton_new, h1]
  · simp [singleton_new, h2]

/-- Witness for C5 at concrete inputs: a constructor failing on argument 0
and succeeding on argument 7. -/
theorem singleton_error_leaves_slot_empty_witness :
    singleton_new (fun n : Nat => if n = 0 then (.error "boom" : Except String Nat) else .ok n)
        (fun v => decide (v ≠ 0)) none 0 = (.error "boom", none, true) ∧
    singleton_new (fun n : Nat => if n = 0 then (.error "boom" : Except String Nat) else .ok n)
        (fun v => decide (v ≠ 0)) none 7 = (.ok 7, some 7, true) :=
  singleton_error_leaves_slot_empty
    (fun n : Nat => if n = 0 then (.error "boom" : Except String Nat) else .ok n)
    (fun v => decide (v ≠ 0)) 0 7 "boom" 7 rfl rfl

/-! ## Theorems for the claims about `pytool.time` -/

/-- Helper: `week_start` lands on a Monday (weekday 0). -/
theorem week_start_weekday (t : PyDateTime) :
    (week_start t).weekday = 0 := by
  simp only [week_start, PyDateTime.weekday]
  omega

/-- The wall-clock difference `t - week_start t` in microseconds. -/
theorem week_start_diff (t : PyDateTime) (h : 1 ≤ t.ordinal) :
    t.toMicros - (week_start t).toMicros =
      (t.weekday * 86400 + t.secOfDay) * 1000000 + t.micro := by
  simp only [week_start, PyDateTime.weekday, PyDateTime.toMicros]
  omega

/-- Helper: `week_start t` never lies after `t`. -/
theorem week_start_le (t : PyDateTime) :
    (week_start t).toMicros ≤ t.toMicros := by
  simp only [week_start, PyDateTime.weekday, PyDateTime.toMicros]
  omega

/-- Closed form of `week_seconds` on a naive datetime with in-range
microseconds. -/
theorem week_seconds_eq (t : PyDateTime) (h1 : 1 ≤ t.ordinal)
    (hm : t.micro < 1000000) (htz : t.tz = none) :
    week_seconds t = some (t.weekday * 86400 + t.secOfDay) := by
  simp only [week_seconds, htz, week_start_diff t h1, Option.some.injEq]
  omega

/-- C10: `trim_time` keeps the calendar date (ordinal, hence year, month and
day) and the timezone of its argument, and zeroes the hour, minute, second
and microsecond. -/
theorem trim_time_zeroes_time (t : PyDateTime) :
    (trim_time t).ordinal = t.ordinal ∧
    (trim_time t).year = t.year ∧ (trim_time t).month = t.month ∧
    (trim_time t).day = t.day ∧
    (trim_time t).hour = 0 ∧ (trim_time t).minute = 0 ∧
    (trim_time t).second = 0 ∧ (trim_time t).micro = 0 ∧
    (trim_time t).tz = t.tz := by
  refine ⟨rfl, rfl, rfl, rfl, ?_, ?_, ?_, rfl, rfl⟩ <;>
    simp [trim_time, PyDateTime.hour, PyDateTime.minute, PyDateTime.second]

/-- C9: `week_seconds (week_start t)` is 0 for every representable
timestamp. -/
theorem week_seconds_week_start (t : PyDateTime) (h : 1 ≤ t.ordinal) :
    week_seconds (week_start t) = some 0 := by
  have h1 : 1 ≤ (week_start t).ordinal := by
    simp only [week_start, PyDateTime.weekday]
    omega
  rw [week_seconds_eq (week_start t) h1 (by simp [week_start]) rfl,
    week_start_weekday t]
  rfl

/-- Witness for C9 at the concrete timestamp 1970-01-01 01:01:01.000005
(ordinal 719163, a Thursday). -/
theorem week_seconds_week_start_witness :
    week_seconds (week_start ⟨719163, 3661, 5, none⟩) = some 0 :=
  week_seconds_week_start ⟨719163, 3661, 5, none⟩ (by decide)

/-- C6: on every representable naive timestamp, `week_seconds` returns
`weekday * 86400 + secOfDay`, an integer in `[0, 604800)`; that value is the
whole number of elapsed seconds since `week_start t`, which is the most
recent Monday 00:00: it has weekday 0, time 00:00:00.000000, does not lie
after `t`, lies less than 7 days before `t`, and no later Monday midnight is
at or before `t`. -/
theorem week_seconds_range_and_anchor (t : PyDateTime) (hv : t.valid)
    (htz : t.tz = none) :
    week_seconds t = some (t.weekday * 86400 + t.secOfDay) ∧
    t.weekday * 86400 + t.secOfDay < 604800 ∧
    (week_start t).weekday = 0 ∧ (week_start t).secOfDay = 0 ∧
    (week_start t).micro = 0 ∧
    (week_start t).toMicros ≤ t.toMicros ∧
    t.toMicros - (week_start t).toMicros < 604800 * 1000000 ∧
    (t.weekday * 86400 + t.secOfDay) * 1000000 ≤
      t.toMicros - (week_start t).toMicros ∧
    t.toMicros - (week_start t).toMicros <
      (t.weekday * 86400 + t.secOfDay + 1) * 1000000 ∧
    (∀ m : PyDateTime, m.weekday = 0 → m.secOfDay = 0 → m.micro = 0 →
      1 ≤ m.ordinal → m.toMicros ≤ t.toMicros →
      m.ordinal ≤ (week_start t).ordinal) := by
  obtain ⟨h1, h2, h3, h4⟩ := hv
  have hw : t.weekday < 7 := Nat.mod_lt _ (by norm_num)
  refine ⟨week_seconds_eq t h1 h4 htz, by omega, week_start_weekday t,
    rfl, rfl, week_start_le t, ?_, ?_, ?_, ?_⟩
  · rw [week_start_diff t h1]; omega
  · rw [week_start_diff t h1]; omega
  · rw [week_start_diff t h1]; omega
  · intro m hm0 hm1 hm2 hm3 hm4
    simp only [PyDateTime.toMicros, hm1, hm2] at hm4
    simp only [PyDateTime.weekday] at hm0
    simp only [week_start, PyDateTime.weekday]
    omega

/-- Witness for C6 at the concrete naive timestamp 1970-01-01 01:01:01.000005
(a Thursday, weekday 3): `week_seconds` gives `3*86400 + 3661 = 262861`. -/
theorem week_seconds_range_and_anchor_witness :
    week_seconds ⟨719163, 3661, 5, none⟩ = some 262861 :=
  (week_seconds_range_and_anchor ⟨719163, 3661, 5, none⟩ (by decide) rfl).1

/-- C3 as stated is false: `week_seconds_to_datetime` anchors at
`week_start(datetime.now())`, the week of the evaluation moment, not the
week of `t`.  With `t` = 0001-01-01 00:00 (Monday, ordinal 1) and the
evaluation moment in the following week (ordinal 8), the reconstructed
datetime lies in the evaluation week, not in `t`'s week. -/
theorem week_seconds_roundtrip_wrong_week :
    week_seconds (⟨1, 0, 0, none⟩ : PyDateTime) = some 0 ∧
    week_start (week_seconds_to_datetime ⟨8, 0, 0, none⟩ 0) ≠
      week_start (⟨1, 0, 0, none⟩ : PyDateTime) := by
  constructor
  · rfl
  · decide

/-- C3 amended: for every representable naive `t` and every evaluation
moment `now`, `week_seconds_to_datetime now (week_seconds t)` has the same
weekday, hour, minute and second as `t`; it falls in the week of the
evaluation moment (`week_start` of the result is `week_start now`), so it
falls within the same week as `t` exactly when `now` lies in `t`'s week,
in which case it equals `t` with the microseconds zeroed. -/
theorem week_seconds_roundtrip_reconstruction (t now : PyDateTime)
    (hv : t.valid) (htz : t.tz = none) (hnow : 1 ≤ now.ordinal) (s : Nat)
    (hs : week_seconds t = some s) :
    (week_seconds_to_datetime now s).weekday = t.weekday ∧
    (week_seconds_to_datetime now s).hour = t.hour ∧
    (week_seconds_to_datetime now s).minute = t.minute ∧
    (week_seconds_to_datetime now s).second = t.second ∧
    week_start (week_seconds_to_datetime now s) = week_start now ∧
    (week_start (week_seconds_to_datetime now s) = week_start t ↔
      week_start now = week_start t) ∧
    (week_start now = week_start t →
      week_seconds_to_datetime now s =
        (⟨t.ordinal, t.secOfDay, 0, none⟩ : PyDateTime)) := by
  obtain ⟨h1, h2, h3, h4⟩ := hv
  rw [week_seconds_eq t h1 h4 htz, Option.some.injEq] at hs
  have hw : t.weekday < 7 := Nat.mod_lt _ (by norm_num)
  have hordr : (week_seconds_to_datetime now s).ordinal =
      now.ordinal - now.weekday + t.weekday := by
    simp only [week_seconds_to_datetime, addSeconds, week_start]
    omega
  have hsec : (week_seconds_to_datetime now s).secOfDay = t.secOfDay := by
    simp only [week_seconds_to_datetime, addSeconds, week_start]
    omega
  have hmic : (week_seconds_to_datetime now s).micro = 0 := by
    simp only [week_seconds_to_datetime, addSeconds, week_start]
  have htzr : (week_seconds_to_datetime now s).tz = none := by
    simp only [week_seconds_to_datetime, addSeconds, week_start]
  have hwd : (week_seconds_to_datetime now s).weekday = t.weekday := by
    rw [PyDateTime.weekday, hordr]
    simp only [PyDateTime.weekday] at hw ⊢
    omega
  have hhour : (week_seconds_to_datetime now s).hour = t.hour := by
    simp only [PyDateTime.hour, hsec]
  have hminute : (week_seconds_to_datetime now s).minute = t.minute := by
    simp only [PyDateTime.minute, hsec]
  have hsecond : (week_seconds_to_datetime now s).second = t.second := by
    simp only [PyDateTime.second, hsec]
  have hws : week_start (week_seconds_to_datetime now s) = week_start now := by
    simp only [week_start, PyDateTime.mk.injEq, and_true]
    rw [hordr, hwd]
    omega
  refine ⟨hwd, hhour, hminute, hsecond, hws, by rw [hws], ?_⟩
  intro hweek
  have hord2 : now.ordinal - now.weekday = t.ordinal - t.weekday := by
    have hco := congrArg PyDateTime.ordinal hweek
    simpa [week_start] using hco
  have hordt : (week_seconds_to_datetime now s).ordinal = t.ordinal := by
    rw [hordr, hord2]
    simp only [PyDateTime.weekday] at hw ⊢
    omega
  calc week_seconds_to_datetime now s
      = (⟨(week_seconds_to_datetime now s).ordinal,
          (week_seconds_to_datetime now s).secOfDay,
          (week_seconds_to_datetime now s).micro,
          (week_seconds_to_datetime now s).tz⟩ : PyDateTime) := rfl
    _ = (⟨t.ordinal, t.secOfDay, 0, none⟩ : PyDateTime) := by
        rw [hordt, hsec, hmic, htzr]

/-- Witness for C3 (amended) at concrete inputs: `t` = ordinal 9 (a Tuesday)
02:02:02.123456 with `week_seconds t = 93722`, and the evaluation moment
`now` = ordinal 20 (a Saturday) in a *different* week: the reconstruction
(ordinal 16, the Tuesday of `now`'s week) still has `t`'s weekday. -/
theorem week_seconds_roundtrip_reconstruction_witness :
    (week_seconds_to_datetime ⟨20, 50000, 0, none⟩ 93722).weekday =
      (⟨9, 7322, 123456, none⟩ : PyDateTime).weekday :=
  (week_seconds_roundtrip_reconstruction ⟨9, 7322, 123456, none⟩
    ⟨20, 50000, 0, none⟩ (by decide) rfl (by decide) 93722 (by decide)).1

end Pytool
